import Mathlib

/-!
Verification of the ehome solar-dashboard data layer.

Shallow embedding of `src/services/energyData.ts` and the window-eviction
step of `src/pages/Index.tsx`.  JavaScript numbers are modelled as `ℚ`;
the JS value `NaN` is modelled as `none` in an `Option ℚ` wherever it can
arise (the timestamp path), and JS `undefined` string inputs are modelled
as `none : Option String`.  Exceptions are modelled with `Except`.

Simplifications of the JS builtins, noted where they matter:
`parseFloat` / `Number` are modelled on decimal literals (sign, digits,
fraction, exponent); the `Infinity` and hexadecimal forms, which never
occur in this data path, are not modelled.  `new Date(y, m, d, h, mi, s)`
is modelled in a fixed UTC-like local zone (offset 0) with the proleptic
Gregorian calendar, including the ECMAScript two-digit-year rule,
field normalization/overflow, and the time-value clip to |t| ≤ 8.64e15.
-/

namespace EHome

/-- Characters that `parseFloat`/`Number` skip as leading whitespace. -/
def jsWhitespace (c : Char) : Bool :=
  c = ' ' || c = '\t' || c = '\n' || c = '\r' || c = '\x0b' || c = '\x0c'

/-- Value of a (non-empty) digit string, most significant first. -/
def digitsVal (ds : List Char) : ℕ :=
  ds.foldl (fun n c => 10 * n + (c.toNat - '0'.toNat)) 0

/-- Value of the fractional digits after the decimal point. -/
def fracVal (ds : List Char) : ℚ :=
  (digitsVal ds : ℚ) / (10 : ℚ) ^ ds.length

/-- Parse an unsigned decimal significand (digits, optional point and
fraction digits) off the front of `cs`; return the value and the rest.
`none` models a missing significand (JS `NaN`). -/
def parseSignificand (cs : List Char) : Option ℚ × List Char :=
  let intDigits := cs.takeWhile Char.isDigit
  let rest1 := cs.dropWhile Char.isDigit
  match rest1 with
  | '.' :: rest2 =>
    let fracDigits := rest2.takeWhile Char.isDigit
    let rest3 := rest2.dropWhile Char.isDigit
    if intDigits.isEmpty && fracDigits.isEmpty then (none, cs)
    else (some ((digitsVal intDigits : ℚ) + fracVal fracDigits), rest3)
  | _ =>
    if intDigits.isEmpty then (none, cs) else (some (digitsVal intDigits : ℚ), rest1)

/-- Apply a signed decimal exponent to a significand. -/
def applyExp (m : ℚ) (sgn : ℤ) (e : ℕ) : ℚ :=
  if 0 ≤ sgn then m * (10 : ℚ) ^ e else m / (10 : ℚ) ^ e

/-- The exponent part accepted by `parseFloat` at the head of `cs`:
`e`/`E`, optional sign, digits.  An invalid exponent part is ignored
(exponent 0), as `parseFloat` takes the longest valid prefix. -/
def parseFloatExp (cs : List Char) : ℤ × ℕ :=
  match cs with
  | 'e' :: rest | 'E' :: rest =>
    let (esgn, r2) : ℤ × List Char :=
      match rest with
      | '-' :: r => (-1, r)
      | '+' :: r => (1, r)
      | _ => (1, rest)
    let ds := r2.takeWhile Char.isDigit
    if ds.isEmpty then (1, 0) else (esgn, digitsVal ds)
  | _ => (1, 0)

/-- Model of JS `parseFloat`: longest numeric prefix after leading
whitespace; `none` models `NaN` (no numeric prefix). -/
def jsParseFloat (s : String) : Option ℚ :=
  let cs := s.data.dropWhile jsWhitespace
  let (sgn, cs1) : ℚ × List Char :=
    match cs with
    | '-' :: r => (-1, r)
    | '+' :: r => (1, r)
    | _ => (1, cs)
  match parseSignificand cs1 with
  | (none, _) => none
  | (some m, rest) =>
    let (esgn, e) := parseFloatExp rest
    some (sgn * applyExp m esgn e)

/-- The exponent part accepted by `Number`, which must consume the whole
remaining string: `none` models `NaN`. -/
def numberExp (cs : List Char) : Option (ℤ × ℕ) :=
  match cs with
  | [] => some (1, 0)
  | 'e' :: rest | 'E' :: rest =>
    let (esgn, r2) : ℤ × List Char :=
      match rest with
      | '-' :: r => (-1, r)
      | '+' :: r => (1, r)
      | _ => (1, rest)
    let ds := r2.takeWhile Char.isDigit
    let r3 := r2.dropWhile Char.isDigit
    if ds.isEmpty || !r3.isEmpty then none else some (esgn, digitsVal ds)
  | _ => none

/-- Model of JS `Number(string)`: trims whitespace, the empty string is 0,
otherwise the whole string must be a decimal literal; `none` models `NaN`. -/
def jsNumber (s : String) : Option ℚ :=
  let cs := (s.data.dropWhile jsWhitespace).reverse.dropWhile jsWhitespace |>.reverse
  if cs.isEmpty then some 0
  else
    let (sgn, cs1) : ℚ × List Char :=
      match cs with
      | '-' :: r => (-1, r)
      | '+' :: r => (1, r)
      | _ => (1, cs)
    match parseSignificand cs1 with
    | (none, _) => none
    | (some m, rest) =>
      match numberExp rest with
      | none => none
      | some (esgn, e) => some (sgn * applyExp m esgn e)

/-- JS `Math.round x`: `⌊x + 1/2⌋`, as a rational-valued integer. -/
def jsRound (q : ℚ) : ℚ := (⌊q + 1 / 2⌋ : ℤ)

/-- Split a character list at every occurrence of `sep`. -/
def splitCharAux (sep : Char) : List Char → List (List Char)
  | [] => [[]]
  | c :: rest =>
    let r := splitCharAux sep rest
    if c = sep then [] :: r
    else
      match r with
      | [] => [[c]]
      | h :: t => (c :: h) :: t

/-- Model of JS `String.prototype.split` with a one-character separator:
`"a-b".split('-') = ["a","b"]`, `"".split('-') = [""]`,
`"a-".split('-') = ["a",""]`. -/
def jsSplit (sep : Char) (s : String) : List String :=
  (splitCharAux sep s.data).map List.asString

/-- JS `ToIntegerOrInfinity` on a finite number: truncation toward zero. -/
def ratTrunc (q : ℚ) : ℤ := if 0 ≤ q then ⌊q⌋ else ⌈q⌉

/-- Days since 1970-01-01 of the Gregorian date `(y, m, d)`, `m` 1-based
(the standard civil-from-days arithmetic used by ECMAScript `MakeDay`). -/
def daysFromCivil (y m d : ℤ) : ℤ :=
  let y1 := if m ≤ 2 then y - 1 else y
  let era := Int.fdiv y1 400
  let yoe := y1 - era * 400
  let mp := if 2 < m then m - 3 else m + 9
  let doy := Int.fdiv (153 * mp + 2) 5 + d - 1
  let doe := yoe * 365 + Int.fdiv yoe 4 - Int.fdiv yoe 100 + doy
  era * 146097 + doe - 719468

/-- ECMAScript `MakeDay y m d`: `m` is 0-based and may lie outside 0..11,
in which case it carries into the year; `d` may overflow and carries into
the month arithmetically. -/
def jsMakeDay (y m d : ℤ) : ℤ :=
  let ym := y + Int.fdiv m 12
  let mn := Int.emod m 12
  daysFromCivil ym (mn + 1) 1 + (d - 1)

/-- ECMAScript `TimeClip`: time values beyond ±8.64e15 ms become `NaN`. -/
def jsTimeClip (t : ℚ) : Option ℚ :=
  if |t| ≤ 8640000000000000 then some t else none

/-- Model of `new Date(y, mon, d, h, mi, s).getTime()` on finite arguments
(`mon` 0-based), in a local zone of offset 0: truncate each argument
toward zero, apply the two-digit-year rule, and combine. -/
def jsMakeDate (y mon d h mi s : ℚ) : Option ℚ :=
  let yi := ratTrunc y
  let yr := if 0 ≤ yi ∧ yi ≤ 99 then 1900 + yi else yi
  let day := jsMakeDay yr (ratTrunc mon) (ratTrunc d)
  let tm := ((ratTrunc h * 60 + ratTrunc mi) * 60 + ratTrunc s) * 1000
  jsTimeClip ((day * 86400000 + tm : ℤ) : ℚ)

/-! ## The data model of `energyData.ts` -/

/-- Structure `EnergyReading` of `energyData.ts`.  `timestamp` is `Option ℚ`
because the JS field can hold `NaN` (modelled as `none`). -/
structure EnergyReading where
  timestamp : Option ℚ
  solarVoltage : ℚ
  chargingVoltage : ℚ
  chargingAmps : ℚ
  batteryPercentage : ℚ
  loadWatts : ℚ
  solarPower : ℚ
  inverterLoad : ℚ
deriving DecidableEq

/-- Structure `EnergyStats` of `energyData.ts`. -/
structure EnergyStats where
  dailyEnergyCharged : ℚ
  dailyEnergyDischarged : ℚ
  currentPowerUsage : ℚ
  currentLoad : ℚ
  peakPower : ℚ
  batteryPercentage : ℚ
  solarGeneration : ℚ
  totalCharge : ℚ
deriving DecidableEq

/-- The charge-counter object `apiData[3]`.  Fields are `Option String`
because the source accesses them on an `any` value (`none` models
`undefined`). -/
structure ChargeData where
  kwh_positive : Option String
  kwh_negative : Option String
  last_shunt_v : Option String
deriving DecidableEq

/-- Errors a modelled fragment can throw.  `typeError` is the implicit JS
`TypeError` raised by a property access on `undefined`; `invalidArgument`
is the explicit precondition-violation signal the spec asks for, which no
code in `energyData.ts` ever raises. -/
inductive JsError where
  | typeError
  | invalidArgument
deriving DecidableEq

/-- Function `safeParseFloat` of `energyData.ts` (lines 130-135): `undefined`,
empty, or `NaN`-parsing input gives 0, otherwise the `parseFloat` value. -/
def safeParseFloat (value : Option String) : ℚ :=
  match value with
  | none => 0
  | some s =>
    if s = "" then 0
    else
      match jsParseFloat s with
      | none => 0
      | some q => q

/-- The timestamp computation of `convertApiDataToReading` (lines
163-175): if both the date and the time field are truthy, split them on
`-` / `:`, convert the pieces with `Number`, and build a `Date`;
otherwise use `Date.now()` (the `now` argument).  A `NaN` piece makes the
`Date` invalid (`none`); no exception can occur, so the `catch` arm that
also yields `now` is unreachable in the model. -/
def computeTimestamp (d t : Option String) (now : ℚ) : Option ℚ :=
  match d, t with
  | some ds, some ts =>
    if ds = "" || ts = "" then some now
    else
      let dp := (jsSplit '-' ds).map jsNumber
      let tp := (jsSplit ':' ts).map jsNumber
      match (dp.get? 0).join, (dp.get? 1).join, (dp.get? 2).join,
            (tp.get? 0).join, (tp.get? 1).join, (tp.get? 2).join with
      | some y, some mo, some dd, some h, some mi, some ss =>
        jsMakeDate y (mo - 1) dd h mi ss
      | _, _, _, _, _, _ => none
  | _, _ => some now

/-- Function `convertApiDataToReading` of `energyData.ts` (lines 138-187).
`powerData` is accepted and unused, as in the source; `now` stands for
the wall clock `Date.now()` at the call. -/
def convertApiDataToReading (mpptData : List String) (powerData : List String)
    (chargeData : ChargeData) (now : ℚ) : EnergyReading :=
  let batteryVoltage := safeParseFloat (mpptData.get? 2)
  let solarVoltage := safeParseFloat (mpptData.get? 3)
  let solarAmps := safeParseFloat (mpptData.get? 5)
  let batteryLoad := safeParseFloat chargeData.last_shunt_v
  let batteryPercentage :=
    min (100 : ℚ) (max 0 (((batteryVoltage - 10.5) / (14.4 - 10.5)) * 100))
  let solarPower := solarVoltage * solarAmps
  let inverterLoad :=
    if 0 < batteryLoad then |solarPower - batteryLoad * 2 * batteryVoltage|
    else |batteryLoad * 37.77|
  { timestamp := computeTimestamp (mpptData.get? 0) (mpptData.get? 1) now
    solarVoltage
    chargingVoltage := batteryVoltage
    chargingAmps := solarAmps
    batteryPercentage
    loadWatts := |batteryLoad * batteryVoltage * 2|
    solarPower
    inverterLoad }

/-- Function `getEnergyStats` of `energyData.ts` (lines 220-255), with the fetched
charge counters passed explicitly.  On an empty `data`,
`data[data.length - 1]` is `undefined` and the later property accesses
throw an implicit `TypeError`, modelled as `Except.error .typeError`. -/
def getEnergyStats (data : List EnergyReading) (chargeData : ChargeData) :
    Except JsError EnergyStats :=
  let dailyEnergyCharged := safeParseFloat chargeData.kwh_positive * 1000
  let dailyEnergyDischarged := |safeParseFloat chargeData.kwh_negative| * 1000
  let solarGeneration :=
    (data.foldl (fun total r => total + r.solarVoltage * r.chargingAmps) 0) / 60000
  let peakPower :=
    data.foldl (fun pk r => if pk < r.solarPower then r.solarPower else pk) 0
  match data.get? (data.length - 1) with
  | none => .error .typeError
  | some latestReading =>
    .ok
      { dailyEnergyCharged := jsRound dailyEnergyCharged
        dailyEnergyDischarged := jsRound dailyEnergyDischarged
        currentPowerUsage := jsRound latestReading.solarPower
        currentLoad := jsRound latestReading.loadWatts
        peakPower := jsRound peakPower
        batteryPercentage := jsRound latestReading.batteryPercentage
        solarGeneration := jsRound (solarGeneration * 100) / 100
        totalCharge :=
          jsRound ((dailyEnergyCharged - dailyEnergyDischarged) / 1000 * 100) / 100 }

/-- The window-update step of `Index.tsx` (line 78):
`[...prev, newReading].slice(-96)`. -/
def pushReading (prev : List EnergyReading) (r : EnergyReading) : List EnergyReading :=
  let l := prev ++ [r]
  l.drop (l.length - 96)

/-! ## Concrete inputs used in witnesses and counterexamples -/

/-- The raw MPPT record of the spec's end-to-end example. -/
def mpptEx : List String :=
  ["2025-01-01", "12:00:00", "12.30", "40.00", "0", "1.00", "-1.20", "10", "MPPT", "", "0"]

/-- The charge counters of the spec's end-to-end example. -/
def chargeEx : ChargeData := ⟨some "1.25", some "-0.75", some "-2.5"⟩

/-- A raw record whose date field is present but not numeric. -/
def mpptBadDate : List String := ["x", "12:00:00", "12.30", "40.00", "0", "1.00"]

/-- A raw record whose date field is present but empty. -/
def mpptEmptyDate : List String := ["", "12:00:00", "12.30", "40.00", "0", "1.00"]

/-- A raw record with negative voltage/current fields. -/
def mpptNeg : List String := ["2025-01-01", "12:00:00", "-1", "-2", "0", "-3"]

/-- A charge-counter object with all fields `undefined`. -/
def chargeUndef : ChargeData := ⟨none, none, none⟩

/-- A reading with a negative `solarPower` and all other numbers zero. -/
def rNeg : EnergyReading := ⟨some 0, 0, 0, 0, 0, 0, -5, 0⟩

/-- The stats `getEnergyStats [rNeg] chargeUndef` produces. -/
def statsNeg : EnergyStats := ⟨0, 0, -5, 0, 0, 0, 0, 0⟩

/-- A synthetic reading used to build long windows. -/
def testReading (i : ℕ) : EnergyReading := ⟨some i, i, 0, 0, 0, 0, 0, 0⟩

/-! ## Helper lemmas

Concrete `ℚ` arithmetic does not reduce definitionally (its normalization
runs `Nat.gcd`), so concrete parses are first bridged by `rfl` to an
explicit arithmetic expression — the structural part of the parser does
reduce — and then settled by `norm_num`. -/

theorem applyExp_pos (m : ℚ) (e : ℕ) : applyExp m 1 e = m * 10 ^ e := by
  simp [applyExp]

theorem spf_12_30 : safeParseFloat (some "12.30") = 123 / 10 := by
  have h : jsParseFloat "12.30" =
      some (1 * applyExp (((12 : ℕ) : ℚ) + ((30 : ℕ) : ℚ) / 10 ^ 2) 1 0) := rfl
  simp [safeParseFloat, h, applyExp_pos]
  norm_num

theorem spf_40_00 : safeParseFloat (some "40.00") = 40 := by
  have h : jsParseFloat "40.00" =
      some (1 * applyExp (((40 : ℕ) : ℚ) + ((0 : ℕ) : ℚ) / 10 ^ 2) 1 0) := rfl
  simp [safeParseFloat, h, applyExp_pos]

theorem spf_1_00 : safeParseFloat (some "1.00") = 1 := by
  have h : jsParseFloat "1.00" =
      some (1 * applyExp (((1 : ℕ) : ℚ) + ((0 : ℕ) : ℚ) / 10 ^ 2) 1 0) := rfl
  simp [safeParseFloat, h, applyExp_pos]

theorem spf_neg2_5 : safeParseFloat (some "-2.5") = -(5 / 2) := by
  have h : jsParseFloat "-2.5" =
      some (-1 * applyExp (((2 : ℕ) : ℚ) + ((5 : ℕ) : ℚ) / 10 ^ 1) 1 0) := rfl
  simp [safeParseFloat, h, applyExp_pos]
  norm_num

theorem spf_neg1 : safeParseFloat (some "-1") = -1 := by
  have h : jsParseFloat "-1" = some (-1 * applyExp ((1 : ℕ) : ℚ) 1 0) := rfl
  simp [safeParseFloat, h, applyExp_pos]

theorem spf_neg2 : safeParseFloat (some "-2") = -2 := by
  have h : jsParseFloat "-2" = some (-1 * applyExp ((2 : ℕ) : ℚ) 1 0) := rfl
  simp [safeParseFloat, h, applyExp_pos]

theorem spf_neg3 : safeParseFloat (some "-3") = -3 := by
  have h : jsParseFloat "-3" = some (-1 * applyExp ((3 : ℕ) : ℚ) 1 0) := rfl
  simp [safeParseFloat, h, applyExp_pos]

theorem jsPF_12_5 : jsParseFloat "12.5" = some (25 / 2) := by
  have h : jsParseFloat "12.5" =
      some (1 * applyExp (((12 : ℕ) : ℚ) + ((5 : ℕ) : ℚ) / 10 ^ 1) 1 0) := rfl
  rw [h, applyExp_pos]
  norm_num

theorem convert_chargingVoltage (mpptData powerData : List String)
    (chargeData : ChargeData) (now : ℚ) :
    (convertApiDataToReading mpptData powerData chargeData now).chargingVoltage =
      safeParseFloat (mpptData.get? 2) := rfl

theorem convert_solarVoltage (mpptData powerData : List String)
    (chargeData : ChargeData) (now : ℚ) :
    (convertApiDataToReading mpptData powerData chargeData now).solarVoltage =
      safeParseFloat (mpptData.get? 3) := rfl

theorem convert_chargingAmps (mpptData powerData : List String)
    (chargeData : ChargeData) (now : ℚ) :
    (convertApiDataToReading mpptData powerData chargeData now).chargingAmps =
      safeParseFloat (mpptData.get? 5) := rfl

theorem convert_solarPower (mpptData powerData : List String)
    (chargeData : ChargeData) (now : ℚ) :
    (convertApiDataToReading mpptData powerData chargeData now).solarPower =
      safeParseFloat (mpptData.get? 3) * safeParseFloat (mpptData.get? 5) := rfl

theorem convert_batteryPercentage (mpptData powerData : List String)
    (chargeData : ChargeData) (now : ℚ) :
    (convertApiDataToReading mpptData powerData chargeData now).batteryPercentage =
      min 100 (max 0 ((safeParseFloat (mpptData.get? 2) - 10.5) / (14.4 - 10.5) * 100)) := rfl

theorem convert_inverterLoad (mpptData powerData : List String)
    (chargeData : ChargeData) (now : ℚ) :
    (convertApiDataToReading mpptData powerData chargeData now).inverterLoad =
      if 0 < safeParseFloat chargeData.last_shunt_v then
        |safeParseFloat (mpptData.get? 3) * safeParseFloat (mpptData.get? 5) -
          safeParseFloat chargeData.last_shunt_v * 2 * safeParseFloat (mpptData.get? 2)|
      else |safeParseFloat chargeData.last_shunt_v * 37.77| := rfl

theorem jsRound_zero : jsRound 0 = 0 := by
  have h : ⌊(0 + 1 / 2 : ℚ)⌋ = 0 := by
    rw [Int.floor_eq_zero_iff, Set.mem_Ico]
    norm_num
  rw [jsRound, h]
  norm_num

theorem jsRound_neg_five : jsRound (-5) = -5 := by
  have h : ⌊(-5 + 1 / 2 : ℚ)⌋ = -5 := by
    rw [Int.floor_eq_iff]
    constructor <;> norm_num
  rw [jsRound, h]
  norm_num

theorem jsRound_nonneg (q : ℚ) (h : 0 ≤ q) : 0 ≤ jsRound q := by
  rw [jsRound]
  have hf : (0 : ℤ) ≤ ⌊q + 1 / 2⌋ := Int.le_floor.mpr (by push_cast; linarith)
  exact_mod_cast hf

/-! ## Claim theorems -/

/-- C1: for every raw positional record, the Reading produced by the
Normalizer satisfies `solarPower = solarVoltage * chargingAmps` exactly:
`solarPower` is derived as the product of the normalized solar-voltage
and charging-amps fields, never independently sampled. -/
theorem solarPower_eq_product (mpptData powerData : List String)
    (chargeData : ChargeData) (now : ℚ) :
    (convertApiDataToReading mpptData powerData chargeData now).solarPower =
      (convertApiDataToReading mpptData powerData chargeData now).solarVoltage *
        (convertApiDataToReading mpptData powerData chargeData now).chargingAmps := rfl

/-- C2, counterexample: on the spec's own example record the shunt value
parses negative, yet the Reading's `inverterLoad` is not
`|shuntValue * batteryVoltage|` — the code multiplies the shunt value by
the constant `37.77`, not by the battery voltage. -/
theorem inverterLoad_discharge_cex :
    safeParseFloat chargeEx.last_shunt_v < 0 ∧
    (convertApiDataToReading mpptEx [] chargeEx 0).inverterLoad ≠
      |safeParseFloat chargeEx.last_shunt_v *
        (convertApiDataToReading mpptEx [] chargeEx 0).chargingVoltage| := by
  rw [convert_inverterLoad, convert_chargingVoltage,
      show chargeEx.last_shunt_v = some "-2.5" from rfl,
      show mpptEx.get? 2 = some "12.30" from rfl, spf_neg2_5, spf_12_30,
      if_neg (by norm_num : ¬ ((0 : ℚ) < -(5 / 2)))]
  constructor
  · norm_num
  · rw [show (-(5 / 2) : ℚ) * 37.77 = -(18885 / 200) by norm_num, abs_neg,
        show (-(5 / 2) : ℚ) * (123 / 10) = -(123 / 4) by norm_num, abs_neg,
        abs_of_nonneg (by norm_num : (0 : ℚ) ≤ 18885 / 200),
        abs_of_nonneg (by norm_num : (0 : ℚ) ≤ 123 / 4)]
    norm_num

/-- C2, amended: the Normalizer's `inverterLoad` is
`|solarPower - (shuntValue * 2) * batteryVoltage|` when the shunt value is
strictly positive, and `|shuntValue * 37.77|` (a hard-coded constant, not
the battery voltage) when the shunt value is zero or negative. -/
theorem inverterLoad_policy (mpptData powerData : List String)
    (chargeData : ChargeData) (now : ℚ) :
    (convertApiDataToReading mpptData powerData chargeData now).inverterLoad =
      if 0 < safeParseFloat chargeData.last_shunt_v then
        |(convertApiDataToReading mpptData powerData chargeData now).solarPower -
          safeParseFloat chargeData.last_shunt_v * 2 *
            (convertApiDataToReading mpptData powerData chargeData now).chargingVoltage|
      else |safeParseFloat chargeData.last_shunt_v * 37.77| := rfl

/-- C3, counterexample: on the spec's end-to-end example the Reading's
`inverterLoad` is not `|-2.5 * 12.30| = 30.75` as claimed. -/
theorem endToEnd_inverterLoad_cex :
    (convertApiDataToReading mpptEx [] chargeEx 0).inverterLoad ≠ 30.75 := by
  rw [convert_inverterLoad, show chargeEx.last_shunt_v = some "-2.5" from rfl, spf_neg2_5,
      if_neg (by norm_num : ¬ ((0 : ℚ) < -(5 / 2))),
      show (-(5 / 2) : ℚ) * 37.77 = -(18885 / 200) by norm_num, abs_neg,
      abs_of_nonneg (by norm_num : (0 : ℚ) ≤ 18885 / 200)]
  norm_num

/-- C3, amended: the spec's end-to-end example yields
`batteryVoltage = 12.30`, `batteryPercentage = 600/13 ≈ 46.15`,
`solarPower = 40.00`, and — the shunt value being negative —
`inverterLoad = |-2.5 * 37.77| = 94.425`, not `30.75`. -/
theorem endToEnd_example :
    (convertApiDataToReading mpptEx [] chargeEx 0).chargingVoltage = 12.30 ∧
    (convertApiDataToReading mpptEx [] chargeEx 0).batteryPercentage = 600 / 13 ∧
    |(convertApiDataToReading mpptEx [] chargeEx 0).batteryPercentage - 46.15| < 1 / 100 ∧
    (convertApiDataToReading mpptEx [] chargeEx 0).solarPower = 40 ∧
    (convertApiDataToReading mpptEx [] chargeEx 0).inverterLoad = |(-2.5 : ℚ) * 37.77| := by
  have hg2 : mpptEx.get? 2 = some "12.30" := rfl
  have hbp : (convertApiDataToReading mpptEx [] chargeEx 0).batteryPercentage = 600 / 13 := by
    rw [convert_batteryPercentage, hg2, spf_12_30,
        show ((123 / 10 : ℚ) - 10.5) / (14.4 - 10.5) * 100 = 600 / 13 by norm_num,
        max_eq_right (by norm_num : (0 : ℚ) ≤ 600 / 13),
        min_eq_right (by norm_num : (600 / 13 : ℚ) ≤ 100)]
  refine ⟨?_, hbp, ?_, ?_, ?_⟩
  · rw [convert_chargingVoltage, hg2, spf_12_30]
    norm_num
  · rw [hbp, show (600 / 13 : ℚ) - 46.15 = 1 / 260 by norm_num,
        abs_of_nonneg (by norm_num : (0 : ℚ) ≤ 1 / 260)]
    norm_num
  · rw [convert_solarPower, show mpptEx.get? 3 = some "40.00" from rfl,
        show mpptEx.get? 5 = some "1.00" from rfl, spf_40_00, spf_1_00]
    norm_num
  · rw [convert_inverterLoad, show chargeEx.last_shunt_v = some "-2.5" from rfl, spf_neg2_5,
        if_neg (by norm_num : ¬ ((0 : ℚ) < -(5 / 2))),
        show (-(5 / 2) : ℚ) * 37.77 = -(18885 / 200) by norm_num, abs_neg,
        show (-2.5 : ℚ) * 37.77 = -(18885 / 200) by norm_num, abs_neg]

/-- C4: for every raw record the Reading's `batteryPercentage` equals the
clamp to `[0, 100]` of `(batteryVoltage - 10.5) / (14.4 - 10.5) * 100`
(the configured 12V calibration pair of this deployment), and therefore
lies within `[0, 100]`. -/
theorem batteryPercentage_clamp (mpptData powerData : List String)
    (chargeData : ChargeData) (now : ℚ) :
    (convertApiDataToReading mpptData powerData chargeData now).batteryPercentage =
      min 100 (max 0
        (((convertApiDataToReading mpptData powerData chargeData now).chargingVoltage
            - 10.5) / (14.4 - 10.5) * 100)) ∧
    0 ≤ (convertApiDataToReading mpptData powerData chargeData now).batteryPercentage ∧
    (convertApiDataToReading mpptData powerData chargeData now).batteryPercentage ≤ 100 := by
  refine ⟨rfl, ?_, ?_⟩
  · exact le_min (by norm_num) (le_max_left 0 _)
  · exact min_le_left _ _

/-- C5: the numeric field parser is total and fail-soft: `undefined`,
empty, and non-numeric inputs give 0, and a numeric input gives its
parsed value.  (Totality itself is inherent: `safeParseFloat` is a plain
function and cannot throw.) -/
theorem safeParseFloat_spec (s : String) :
    safeParseFloat none = 0 ∧
    safeParseFloat (some "") = 0 ∧
    (jsParseFloat s = none → safeParseFloat (some s) = 0) ∧
    ∀ q : ℚ, jsParseFloat s = some q → safeParseFloat (some s) = q := by
  refine ⟨rfl, rfl, ?_, ?_⟩
  · intro h
    by_cases hs : s = "" <;> simp [safeParseFloat, hs, h]
  · intro q h
    have hs : s ≠ "" := by
      rintro rfl
      rw [show jsParseFloat "" = none from rfl] at h
      cases h
    simp [safeParseFloat, hs, h]

/-- C5, witness: a non-numeric field degrades to 0 and a numeric field
parses to its value. -/
theorem safeParseFloat_spec_witness :
    safeParseFloat (some "x2") = 0 ∧ safeParseFloat (some "12.5") = 25 / 2 :=
  ⟨(safeParseFloat_spec "x2").2.2.1 rfl,
   (safeParseFloat_spec "12.5").2.2.2 (25 / 2) jsPF_12_5⟩

/-- C7, counterexample: `getEnergyStats` on an empty window fails with
the implicit `TypeError` of a property access on `undefined`, not with
an explicit invalid-argument signal. -/
theorem getEnergyStats_empty_cex :
    getEnergyStats [] chargeEx = Except.error JsError.typeError ∧
    JsError.typeError ≠ JsError.invalidArgument :=
  ⟨rfl, by decide⟩

/-- C7, amended: `getEnergyStats` applied to an empty window does fail —
`data[data.length - 1]` is `undefined` and the later property accesses
throw — but the failure is an implicit `TypeError`, not an explicit
invalid-argument condition. -/
theorem getEnergyStats_empty_throws (chargeData : ChargeData) :
    getEnergyStats [] chargeData = Except.error JsError.typeError := rfl

theorem pushReading_length_le (w : List EnergyReading) (r : EnergyReading) :
    (pushReading w r).length ≤ 96 := by
  simp [pushReading]
  omega

theorem dropLast96_append_of_le (l m : List EnergyReading) (h : 96 ≤ m.length) :
    (l ++ m).drop ((l ++ m).length - 96) = m.drop (m.length - 96) := by
  have ha : (l ++ m).length - 96 = l.length + (m.length - 96) := by
    rw [List.length_append]
    omega
  rw [ha, List.drop_append]

theorem dropLast96_append_dropLast96 (l m : List EnergyReading) :
    (l.drop (l.length - 96) ++ m).drop ((l.drop (l.length - 96) ++ m).length - 96) =
      (l ++ m).drop ((l ++ m).length - 96) := by
  by_cases h : 96 ≤ l.length
  · have h1 : 96 ≤ (l.drop (l.length - 96) ++ m).length := by
      rw [List.length_append, List.length_drop]
      omega
    conv_rhs => rw [← List.take_append_drop (l.length - 96) l, List.append_assoc]
    exact (dropLast96_append_of_le _ _ h1).symm
  · rw [show l.length - 96 = 0 by omega, List.drop_zero]

theorem foldl_pushReading (rs : List EnergyReading) :
    ∀ w : List EnergyReading, w.length ≤ 96 →
      List.foldl pushReading w rs = (w ++ rs).drop ((w ++ rs).length - 96) := by
  induction rs with
  | nil =>
    intro w hw
    rw [List.foldl_nil, List.append_nil, Nat.sub_eq_zero_of_le hw, List.drop_zero]
  | cons r rs ih =>
    intro w hw
    rw [List.foldl_cons, ih (pushReading w r) (pushReading_length_le w r),
        show pushReading w r = (w ++ [r]).drop ((w ++ [r]).length - 96) from rfl,
        dropLast96_append_dropLast96, List.append_assoc, List.singleton_append]

/-- C6: window eviction is FIFO with capacity 96: appending `N > 96`
readings in arrival order, starting from any window, leaves exactly the
last 96 appended readings, oldest first. -/
theorem window_fifo (w rs : List EnergyReading) (h : 96 < rs.length) :
    List.foldl pushReading w rs = rs.drop (rs.length - 96) ∧
    (List.foldl pushReading w rs).length = 96 := by
  obtain ⟨r, rs', rfl⟩ : ∃ r rs', rs = r :: rs' := by
    cases rs with
    | nil => simp at h
    | cons a l => exact ⟨a, l, rfl⟩
  have h' : 96 ≤ rs'.length := by
    rw [List.length_cons] at h
    omega
  have key : List.foldl pushReading w (r :: rs') = rs'.drop (rs'.length - 96) := by
    rw [List.foldl_cons, foldl_pushReading rs' (pushReading w r) (pushReading_length_le w r),
        dropLast96_append_of_le _ _ h']
  refine ⟨?_, ?_⟩
  · rw [key, show (r :: rs').length - 96 = (rs'.length - 96) + 1 by
        rw [List.length_cons]; omega,
      List.drop_succ_cons]
  · rw [key, List.length_drop]
    omega

/-- C6, witness: appending 97 readings to an empty window keeps exactly
the last 96, oldest first. -/
theorem window_fifo_witness :
    List.foldl pushReading [] ((List.range 97).map testReading) =
      ((List.range 97).map testReading).drop
        (((List.range 97).map testReading).length - 96) ∧
    (List.foldl pushReading [] ((List.range 97).map testReading)).length = 96 :=
  window_fifo [] ((List.range 97).map testReading) (by simp)

/-- C8, counterexample: a record whose date field is present but not
parsable as numbers gets a `NaN` timestamp (`none`), not the
normalization call's wall-clock time (`555`). -/
theorem timestamp_unparsable_cex :
    (convertApiDataToReading mpptBadDate [] chargeEx 555).timestamp = none ∧
    (convertApiDataToReading mpptBadDate [] chargeEx 555).timestamp ≠ some 555 := by
  have h : (convertApiDataToReading mpptBadDate [] chargeEx 555).timestamp = none := rfl
  refine ⟨h, ?_⟩
  rw [h]
  simp

/-- C8, amended: the timestamp falls back to the call's wall-clock time
exactly when the date or time field is absent (`undefined`) or empty;
when both are present and non-empty it is derived from the record's
fields alone — independent of the wall clock — and can be the invalid
time `NaN` when the fields do not parse as numbers.  Derivation never
raises (it is a total function). -/
theorem timestamp_fallback (mpptData powerData : List String) (chargeData : ChargeData)
    (now now' : ℚ) (s0 s1 : String) :
    ((mpptData.get? 0 = none ∨ mpptData.get? 0 = some "" ∨
      mpptData.get? 1 = none ∨ mpptData.get? 1 = some "") →
      (convertApiDataToReading mpptData powerData chargeData now).timestamp = some now) ∧
    (mpptData.get? 0 = some s0 → s0 ≠ "" → mpptData.get? 1 = some s1 → s1 ≠ "" →
      (convertApiDataToReading mpptData powerData chargeData now).timestamp =
        (convertApiDataToReading mpptData powerData chargeData now').timestamp) := by
  have hT : ∀ n : ℚ, (convertApiDataToReading mpptData powerData chargeData n).timestamp =
      computeTimestamp (mpptData.get? 0) (mpptData.get? 1) n := fun _ => rfl
  constructor
  · intro h
    rw [hT]
    rcases h with h | h | h | h
    · rw [h]
      rcases mpptData.get? 1 with _ | t <;> simp [computeTimestamp]
    · rw [h]
      rcases mpptData.get? 1 with _ | t <;> simp [computeTimestamp]
    · rw [h]
      rcases mpptData.get? 0 with _ | d <;> simp [computeTimestamp]
    · rw [h]
      rcases mpptData.get? 0 with _ | d <;> simp [computeTimestamp]
  · intro h0 hs0 h1 hs1
    rw [hT, hT, h0, h1]
    simp [computeTimestamp, hs0, hs1]

/-- C8, witness: an empty date field falls back to the wall clock, and a
parsable embedded date makes the timestamp independent of the wall
clock. -/
theorem timestamp_fallback_witness :
    (convertApiDataToReading mpptEmptyDate [] chargeEx 555).timestamp = some 555 ∧
    (convertApiDataToReading mpptEx [] chargeEx 555).timestamp =
      (convertApiDataToReading mpptEx [] chargeEx 777).timestamp :=
  ⟨(timestamp_fallback mpptEmptyDate [] chargeEx 555 0 "" "").1 (Or.inr (Or.inl rfl)),
   (timestamp_fallback mpptEx [] chargeEx 555 777 "2025-01-01" "12:00:00").2 rfl
     (by decide) rfl (by decide)⟩

/-- C9, counterexample: the Normalizer does not clamp: a raw record with
negative voltage/current fields yields a Reading whose `solarVoltage`,
`chargingVoltage` and `chargingAmps` are all negative. -/
theorem nonneg_fields_cex :
    ¬ (0 ≤ (convertApiDataToReading mpptNeg [] chargeEx 0).solarVoltage) ∧
    ¬ (0 ≤ (convertApiDataToReading mpptNeg [] chargeEx 0).chargingVoltage) ∧
    ¬ (0 ≤ (convertApiDataToReading mpptNeg [] chargeEx 0).chargingAmps) := by
  refine ⟨?_, ?_, ?_⟩
  · rw [convert_solarVoltage, show mpptNeg.get? 3 = some "-2" from rfl, spf_neg2]
    norm_num
  · rw [convert_chargingVoltage, show mpptNeg.get? 2 = some "-1" from rfl, spf_neg1]
    norm_num
  · rw [convert_chargingAmps, show mpptNeg.get? 5 = some "-3" from rfl, spf_neg3]
    norm_num

/-- C9, amended: the Reading's `chargingVoltage`, `solarVoltage` and
`chargingAmps` equal the fail-soft parses of raw fields 2, 3 and 5, so
they are non-negative exactly when those parses are (which holds for all
physically sensible records); the Normalizer itself enforces no
non-negativity. -/
theorem fields_are_raw_parses (mpptData powerData : List String)
    (chargeData : ChargeData) (now : ℚ) :
    (convertApiDataToReading mpptData powerData chargeData now).chargingVoltage =
      safeParseFloat (mpptData.get? 2) ∧
    (convertApiDataToReading mpptData powerData chargeData now).solarVoltage =
      safeParseFloat (mpptData.get? 3) ∧
    (convertApiDataToReading mpptData powerData chargeData now).chargingAmps =
      safeParseFloat (mpptData.get? 5) ∧
    (0 ≤ safeParseFloat (mpptData.get? 2) →
      0 ≤ (convertApiDataToReading mpptData powerData chargeData now).chargingVoltage) ∧
    (0 ≤ safeParseFloat (mpptData.get? 3) →
      0 ≤ (convertApiDataToReading mpptData powerData chargeData now).solarVoltage) ∧
    (0 ≤ safeParseFloat (mpptData.get? 5) →
      0 ≤ (convertApiDataToReading mpptData powerData chargeData now).chargingAmps) :=
  ⟨rfl, rfl, rfl, fun h => h, fun h => h, fun h => h⟩

/-- C9, witness: on the spec's example record all three fields parse
non-negative, so the Reading's fields are non-negative. -/
theorem fields_are_raw_parses_witness :
    0 ≤ (convertApiDataToReading mpptEx [] chargeEx 0).chargingVoltage ∧
    0 ≤ (convertApiDataToReading mpptEx [] chargeEx 0).solarVoltage ∧
    0 ≤ (convertApiDataToReading mpptEx [] chargeEx 0).chargingAmps :=
  ⟨(fields_are_raw_parses mpptEx [] chargeEx 0).2.2.2.1
      (by rw [show mpptEx.get? 2 = some "12.30" from rfl, spf_12_30]; norm_num),
   (fields_are_raw_parses mpptEx [] chargeEx 0).2.2.2.2.1
      (by rw [show mpptEx.get? 3 = some "40.00" from rfl, spf_40_00]; norm_num),
   (fields_are_raw_parses mpptEx [] chargeEx 0).2.2.2.2.2
      (by rw [show mpptEx.get? 5 = some "1.00" from rfl, spf_1_00]; norm_num)⟩

theorem peak_step_le (a : ℚ) (l : List EnergyReading) :
    a ≤ l.foldl (fun pk r => if pk < r.solarPower then r.solarPower else pk) a := by
  induction l generalizing a with
  | nil => simp
  | cons r l ih =>
    rw [List.foldl_cons]
    refine le_trans ?_ (ih _)
    by_cases h : a < r.solarPower
    · rw [if_pos h]
      exact le_of_lt h
    · rw [if_neg h]

theorem peak_zero_of_neg (l : List EnergyReading)
    (h : ∀ r ∈ l, r.solarPower < 0) :
    l.foldl (fun pk r => if pk < r.solarPower then r.solarPower else pk) 0 = 0 := by
  induction l with
  | nil => rfl
  | cons r l ih =>
    rw [List.foldl_cons, if_neg (not_lt.mpr (le_of_lt (h r (List.mem_cons_self r l))))]
    exact ih (fun x hx => h x (List.mem_cons_of_mem r hx))

theorem getEnergyStats_peakPower (data : List EnergyReading) (chargeData : ChargeData)
    (stats : EnergyStats) (h : getEnergyStats data chargeData = Except.ok stats) :
    stats.peakPower =
      jsRound (data.foldl (fun pk r => if pk < r.solarPower then r.solarPower else pk) 0) := by
  unfold getEnergyStats at h
  rcases hL : data.get? (data.length - 1) with _ | latest <;> rw [hL] at h
  · cases h
  · injection h with h2
    subst h2
    rfl

/-- C10: whenever `getEnergyStats` returns, its `peakPower` is
non-negative — the maximum is accumulated from an initial 0 — and a
window whose readings all have negative `solarPower` yields
`peakPower = 0` rather than the window's negative maximum. -/
theorem peakPower_nonneg (data : List EnergyReading) (chargeData : ChargeData)
    (stats : EnergyStats) (h : getEnergyStats data chargeData = Except.ok stats) :
    0 ≤ stats.peakPower ∧
    ((∀ r ∈ data, r.solarPower < 0) → stats.peakPower = 0) := by
  rw [getEnergyStats_peakPower data chargeData stats h]
  exact ⟨jsRound_nonneg _ (peak_step_le 0 data),
    fun hneg => by rw [peak_zero_of_neg data hneg, jsRound_zero]⟩

/-- C10, witness: a one-element window with `solarPower = -5` gives
`peakPower = 0`. -/
theorem peakPower_nonneg_witness :
    0 ≤ statsNeg.peakPower ∧
    ((∀ r ∈ [rNeg], r.solarPower < 0) → statsNeg.peakPower = 0) :=
  peakPower_nonneg [rNeg] chargeUndef statsNeg
    (by
      have h : getEnergyStats [rNeg] chargeUndef = Except.ok
          { dailyEnergyCharged := jsRound (0 * 1000)
            dailyEnergyDischarged := jsRound (|(0 : ℚ)| * 1000)
            currentPowerUsage := jsRound rNeg.solarPower
            currentLoad := jsRound rNeg.loadWatts
            peakPower := jsRound
              ([rNeg].foldl (fun pk r => if pk < r.solarPower then r.solarPower else pk) 0)
            batteryPercentage := jsRound rNeg.batteryPercentage
            solarGeneration := jsRound
              (([rNeg].foldl (fun total r => total + r.solarVoltage * r.chargingAmps) 0)
                / 60000 * 100) / 100
            totalCharge := jsRound ((0 * 1000 - |(0 : ℚ)| * 1000) / 1000 * 100) / 100 } := rfl
      rw [h, show rNeg.solarPower = (-5 : ℚ) from rfl,
          show rNeg.loadWatts = (0 : ℚ) from rfl,
          show rNeg.batteryPercentage = (0 : ℚ) from rfl,
          show [rNeg].foldl (fun pk r => if pk < r.solarPower then r.solarPower else pk) 0
            = (0 : ℚ) from by
              rw [List.foldl_cons,
                  if_neg (by rw [show rNeg.solarPower = (-5 : ℚ) from rfl]; norm_num)]
              rfl,
          show [rNeg].foldl (fun total r => total + r.solarVoltage * r.chargingAmps) 0
            = (0 : ℚ) from by
              rw [List.foldl_cons,
                  show rNeg.solarVoltage = (0 : ℚ) from rfl,
                  show rNeg.chargingAmps = (0 : ℚ) from rfl]
              norm_num,
          abs_zero, show ((0 : ℚ) * 1000) = 0 by norm_num,
          show ((0 : ℚ) - 0) / 1000 * 100 = 0 by norm_num,
          show ((0 : ℚ) / 60000 * 100) = 0 by norm_num,
          jsRound_zero, jsRound_neg_five]
      norm_num [statsNeg])

end EHome
